import Mathlib

/-!
Shallow embedding of the gomoku client's session controller:
the move pipeline (`useGame` hook), the auto-play scheduler
(`useAutoPlay` hook), the self-play progress tracker (`useSelfPlay`
hook) and the shared error banner (`App`), together with theorems
about their behaviour.

Asynchronous engine calls are modelled by an explicit outcome chosen by
the environment; each pipeline invocation is a pure state transformer
that also emits the trace of externally visible events (engine calls,
sounds, rating refreshes) it performed.
-/

namespace Gomoku

/-! ### Data model (src/src/types.ts) -/

inductive Player where
  | B
  | W
deriving DecidableEq, Repr

inductive GameResult where
  | B_WIN
  | W_WIN
  | DRAW
deriving DecidableEq, Repr

inductive RuleSetKind where
  | standard
deriving DecidableEq, Repr

structure Move where
  x : Nat
  y : Nat
  player : Player
deriving DecidableEq, Repr

inductive GameModeType where
  | human_vs_ai
  | ai_vs_ai
  | human_vs_human
deriving DecidableEq, Repr

inductive GameMode where
  | humanVsAi (humanColor : Player)
  | aiVsAi (blackId whiteId : String)
  | humanVsHuman
deriving DecidableEq, Repr

def GameMode.type : GameMode → GameModeType
  | .humanVsAi _ => .human_vs_ai
  | .aiVsAi _ _ => .ai_vs_ai
  | .humanVsHuman => .human_vs_human

/-- A board cell holds `Player | null`; `none` is an empty cell. -/
structure GameSnapshot where
  boardSize : Nat
  board : List (Option Player)
  ruleSet : RuleSetKind
  toMove : Player
  result : Option GameResult
  moves : List Move
  mode : GameMode
  canHumanMove : Bool
deriving DecidableEq, Repr

def emptyBoard (size : Nat) : List (Option Player) :=
  List.replicate (size * size) none

/-- `game.board[index]`: out-of-range access yields `undefined`, which
is as falsy as `null`, so both are `none`. -/
def GameSnapshot.cell (g : GameSnapshot) (index : Nat) : Option Player :=
  g.board.getD index none

def defaultGameMode : GameMode := .humanVsAi .B

def defaultSnapshot : GameSnapshot :=
  { boardSize := 15
    board := emptyBoard 15
    ruleSet := .standard
    toMove := .B
    result := none
    moves := []
    mode := defaultGameMode
    canHumanMove := true }

/-! ### Engine gateway (`call` in the `useGame` hook) -/

/-- The engine commands the `useGame` hook issues through `invoke`. -/
inductive EngineCmd where
  | new_game
  | get_state
  | make_move
  | ai_move
  | save_game
  | load_game
  | export_training
deriving DecidableEq, Repr

/-- Outcome of one `invoke` of an engine command: the promise either
resolves with a value or rejects with an error message. -/
inductive CallOutcome (T : Type) where
  | success (value : T)
  | failure (message : String)
deriving DecidableEq, Repr

/-- The `error` / `canRetryAi` state pair of the `useGame` hook. -/
structure ErrSlot where
  error : Option String
  canRetryAi : Bool
deriving DecidableEq, Repr

/-- `call(cmd, args)`: outside Tauri it sets a fixed error and returns
null; on success it clears the error and returns the result; on failure
it stores the message and marks retryable exactly when the command was
`ai_move`.  Also reports whether an `invoke` actually reached the
engine (the event trace). -/
def call (isTauri : Bool) (_slot : ErrSlot) (cmd : EngineCmd)
    (outcome : CallOutcome GameSnapshot) :
    Option GameSnapshot × ErrSlot × List EngineCmd :=
  if !isTauri then
    (none, { error := some "Run via Tauri to enable game commands.", canRetryAi := false }, [])
  else
    match outcome with
    | .success result => (some result, { error := none, canRetryAi := false }, [cmd])
    | .failure err =>
        (none, { error := some err, canRetryAi := decide (cmd = .ai_move) }, [cmd])

/-! ### Move pipeline (`makeMove` / `requestAiMove` in the `useGame` hook) -/

/-- The pieces of `useGame` state the move pipeline touches:
`game`, `busy`, and the error slot. -/
structure GameState where
  game : GameSnapshot
  busy : Bool
  err : ErrSlot
deriving DecidableEq, Repr

/-- Externally visible effects of one pipeline invocation. -/
inductive GameEvent where
  | engineCall (cmd : EngineCmd)
  | stoneSound
  | ratingsChanged
deriving DecidableEq, Repr

/-- Environment for one invocation: whether the Tauri bridge is
available and the outcome each engine call would have. -/
structure MoveEnv where
  isTauri : Bool
  makeMoveOutcome : CallOutcome GameSnapshot
  aiMoveOutcome : CallOutcome GameSnapshot
deriving DecidableEq, Repr

/-- `makeMove(x, y, onRatingsChanged?, autoTriggerAi = true)`. -/
def makeMove (env : MoveEnv) (st : GameState) (x y : Nat)
    (autoTriggerAi : Bool := true) : GameState × List GameEvent :=
  if st.busy || st.game.result.isSome then (st, [])
  else if !st.game.canHumanMove then (st, [])
  else
    let index := y * st.game.boardSize + x
    if (st.game.cell index).isSome then (st, [])
    else
      let (res, slot1, calls1) := call env.isTauri st.err .make_move env.makeMoveOutcome
      let ev1 := calls1.map GameEvent.engineCall
      match res with
      | none => ({ game := st.game, busy := false, err := slot1 }, ev1)
      | some snapshot =>
        let ev2 := ev1 ++ [.stoneSound]
        if snapshot.result.isNone && autoTriggerAi &&
            decide (snapshot.mode.type = .human_vs_ai) && !snapshot.canHumanMove then
          let (res2, slot2, calls2) := call env.isTauri slot1 .ai_move env.aiMoveOutcome
          let ev3 := ev2 ++ calls2.map GameEvent.engineCall
          match res2 with
          | none => ({ game := snapshot, busy := false, err := slot2 }, ev3)
          | some aiSnapshot =>
            let ev4 := ev3 ++ [.stoneSound]
            if aiSnapshot.result.isSome then
              ({ game := aiSnapshot, busy := false, err := slot2 }, ev4 ++ [.ratingsChanged])
            else
              ({ game := aiSnapshot, busy := false, err := slot2 }, ev4)
        else if snapshot.result.isSome then
          ({ game := snapshot, busy := false, err := slot1 }, ev2 ++ [.ratingsChanged])
        else
          ({ game := snapshot, busy := false, err := slot1 }, ev2)

/-- `requestAiMove(onRatingsChanged?, force = false)`: `force` bypasses
only the `game.result` check. -/
def requestAiMove (env : MoveEnv) (st : GameState)
    (force : Bool := false) : GameState × List GameEvent :=
  if st.busy || (!force && st.game.result.isSome) then (st, [])
  else
    let (res, slot1, calls1) := call env.isTauri st.err .ai_move env.aiMoveOutcome
    let ev1 := calls1.map GameEvent.engineCall
    match res with
    | none => ({ game := st.game, busy := false, err := slot1 }, ev1)
    | some snapshot =>
      if snapshot.result.isSome then
        ({ game := snapshot, busy := false, err := slot1 }, ev1 ++ [.stoneSound, .ratingsChanged])
      else
        ({ game := snapshot, busy := false, err := slot1 }, ev1 ++ [.stoneSound])

/-! ### Auto-play scheduler (src/src/hooks/useAutoPlay.ts) -/

inductive AutoPlaySpeed where
  | slow
  | medium
  | fast
deriving DecidableEq, Repr

def SPEED_INTERVALS : AutoPlaySpeed → Nat
  | .slow => 2000
  | .medium => 1000
  | .fast => 500

/-- The scheduler's state: the `isPlaying` and `speed` states, the
`intervalRef` timer handle (recorded with the interval it fires at),
and the `steppingRef` latch. -/
structure AutoPlaySched where
  isPlaying : Bool
  speed : AutoPlaySpeed
  timer : Option Nat
  stepping : Bool
deriving DecidableEq, Repr

inductive AutoPlayEvent where
  | stepDispatched
deriving DecidableEq, Repr

/-- `clearAutoPlay()`: clears the interval timer, if any. -/
def clearAutoPlay (s : AutoPlaySched) : AutoPlaySched :=
  { s with timer := none }

/-- `step()`: skipped entirely when a step is in flight or the game is
over; otherwise dispatches `onStep` (the latch is held for the duration
of the awaited call and released in `finally`). -/
def stepDispatch (s : AutoPlaySched) (isGameOver : Bool) :
    AutoPlaySched × List AutoPlayEvent :=
  if s.stepping || isGameOver then (s, [])
  else (s, [.stepDispatched])

/-- The body of the playing effect (lines 51-76): when not playing, the
game is over, or the mode is not AI-vs-AI, it clears the timer and — on
game over — forces `isPlaying := false`; otherwise it fires one step
immediately and installs the interval timer for the current speed. -/
def runPlayingEffect (s : AutoPlaySched) (isGameOver isAiVsAi : Bool) :
    AutoPlaySched × List AutoPlayEvent :=
  if !s.isPlaying || isGameOver || !isAiVsAi then
    let s1 := clearAutoPlay s
    (if isGameOver then { s1 with isPlaying := false } else s1, [])
  else
    let (s1, ev) := stepDispatch s isGameOver
    ({ s1 with timer := some (SPEED_INTERVALS s.speed) }, ev)

/-- The mode-change effect (lines 79-84): leaving AI-vs-AI mode forces
`isPlaying := false` and clears the timer. -/
def runModeEffect (s : AutoPlaySched) (isAiVsAi : Bool) : AutoPlaySched :=
  if !isAiVsAi then clearAutoPlay { s with isPlaying := false } else s

/-- One render cycle after the scheduler's inputs change: the previous
playing-effect run's cleanup (`clearAutoPlay`), then the playing effect,
then the mode-change effect. -/
def reconcile (s : AutoPlaySched) (isGameOver isAiVsAi : Bool) :
    AutoPlaySched × List AutoPlayEvent :=
  let s0 := clearAutoPlay s
  let (s1, ev) := runPlayingEffect s0 isGameOver isAiVsAi
  (runModeEffect s1 isAiVsAi, ev)

/-- `setSpeed` while the effect inputs are otherwise unchanged: the
speed state is replaced and, `speed` being a dependency of the playing
effect, the effect is cleaned up and re-run. -/
def setSpeedChange (s : AutoPlaySched) (newSpeed : AutoPlaySpeed)
    (isGameOver isAiVsAi : Bool) : AutoPlaySched × List AutoPlayEvent :=
  reconcile { s with speed := newSpeed } isGameOver isAiVsAi

/-- `start()`: a no-op unless AI-vs-AI and not game over. -/
def AutoPlaySched.start (s : AutoPlaySched) (isGameOver isAiVsAi : Bool) : AutoPlaySched :=
  if !isAiVsAi || isGameOver then s else { s with isPlaying := true }

/-- `stop()`: leaves `playing` and cancels any pending timer. -/
def AutoPlaySched.stop (s : AutoPlaySched) : AutoPlaySched :=
  clearAutoPlay { s with isPlaying := false }

/-! ### Self-play progress tracker (`useSelfPlay` in WelcomePage.tsx) -/

structure SelfPlayProgress where
  completed : Nat
  total : Nat
  percent : ℚ
deriving DecidableEq, Repr

structure SelfPlayReport where
  gamesPerPair : Nat
  totalGames : Nat
  completedGames : Nat
  stopped : Bool
deriving DecidableEq, Repr

/-- The `useSelfPlay` state: `busy`, `progress`, `report`, `eta`,
`error` and the `startRef` anchor timestamp (milliseconds). -/
structure SelfPlayState where
  busy : Bool
  progress : Option SelfPlayProgress
  report : Option SelfPlayReport
  eta : Option String
  error : Option String
  startRef : Option ℚ
deriving DecidableEq, Repr

def initSelfPlay : SelfPlayState :=
  { busy := false, progress := none, report := none
    eta := none, error := none, startRef := none }

def pad2 (n : ℤ) : String :=
  let s := toString n
  if s.length < 2 then "0" ++ s else s

/-- `formatDuration(seconds)`: `Math.floor` is `Int.floor`, and for the
nonnegative values that reach it, the JS remainder `seconds % 60`
equals `seconds - 60 * Math.floor(seconds / 60)`. -/
def formatDuration (seconds : ℚ) : String :=
  if seconds ≤ 0 then "0s"
  else
    let mins : ℤ := ⌊seconds / 60⌋
    let secs : ℤ := ⌊seconds - 60 * (⌊seconds / 60⌋ : ℚ)⌋
    if mins ≥ 60 then
      let hours := mins / 60
      let remMins := mins % 60
      s!"{hours}h {pad2 remMins}m"
    else if mins > 0 then
      s!"{mins}m {pad2 secs}s"
    else
      s!"{secs}s"

/-- The anchor chosen by the progress listener: `Date.now()` when
`startRef.current` is unset (null, or 0, which is falsy), otherwise
the stored anchor. -/
def anchorOf (st : SelfPlayState) (now : ℚ) : ℚ :=
  match st.startRef with
  | none => now
  | some t => if t = 0 then now else t

/-- The `self_play_progress` listener: stores the payload, anchors the
start timestamp if unset, and recomputes the ETA — cleared unless both
`completed` and `total` are positive. -/
def onSelfPlayProgress (st : SelfPlayState) (payload : SelfPlayProgress)
    (now : ℚ) : SelfPlayState :=
  let anchor := anchorOf st now
  if payload.completed > 0 ∧ payload.total > 0 then
    let elapsed := (now - anchor) / 1000
    let remaining :=
      ((payload.total : ℚ) - (payload.completed : ℚ)) * (elapsed / (payload.completed : ℚ))
    { st with progress := some payload, startRef := some anchor
              eta := some (formatDuration remaining) }
  else
    { st with progress := some payload, startRef := some anchor, eta := none }

/-- Outcome of the `start_self_play` invoke: resolution with
`bool | null` (null modelled as `none`), or a rejection. -/
inductive StartOutcome where
  | resolved (value : Option Bool)
  | threw (message : String)
deriving DecidableEq, Repr

/-- The state writes `start()` performs before awaiting the
`start_self_play` call. -/
def selfPlayStartSetup (st : SelfPlayState) (now : ℚ) : SelfPlayState :=
  { st with busy := true, report := none, progress := none
            startRef := some now, eta := none, error := none }

/-- `start()`: a no-op when busy; otherwise performs the setup writes,
issues `start_self_play`, and on a null result or a rejection clears
`busy` and the anchor (recording the rejection message). -/
def selfPlayStart (st : SelfPlayState) (now : ℚ)
    (outcome : StartOutcome) : SelfPlayState :=
  if st.busy then st
  else
    let st1 := selfPlayStartSetup st now
    match outcome with
    | .resolved value =>
        if value = none then { st1 with busy := false, startRef := none } else st1
    | .threw msg => { st1 with error := some msg, busy := false, startRef := none }

/-! ### Shared error banner (src/src/App.tsx) -/

/-- JS truthiness of a `string | null` value. -/
def truthy : Option String → Bool
  | none => false
  | some s => !(s == "")

/-- `const error = gameError || selfPlay.error`. -/
def errorSlotValue (gameError selfPlayError : Option String) : Option String :=
  if truthy gameError then gameError else selfPlayError

/-- The message the banner displays: the shared slot value when truthy,
otherwise no banner is rendered. -/
def visibleError (gameError selfPlayError : Option String) : Option String :=
  let error := errorSlotValue gameError selfPlayError
  if truthy error then error else none

/-- A surfaced error: `setError` in the `useGame` catch path, or
`setError` in the `self_play_error` listener. -/
inductive ErrorWrite where
  | gameError (msg : String)
  | selfPlayError (msg : String)
deriving DecidableEq, Repr

def applyErrorWrite : Option String × Option String → ErrorWrite →
    Option String × Option String
  | (_, s), .gameError msg => (some msg, s)
  | (g, _), .selfPlayError msg => (g, some msg)

/-- The two error slots after a sequence of surfaced errors. -/
def errorSlots (ws : List ErrorWrite) : Option String × Option String :=
  ws.foldl applyErrorWrite (none, none)

/-- Modelled from the spec's words (refinement target, not source code):
last-write-wins would display the message of the most recently surfaced
error. -/
def lastSurfacedError (ws : List ErrorWrite) : Option String :=
  match ws.getLast? with
  | none => none
  | some (.gameError msg) => some msg
  | some (.selfPlayError msg) => some msg

/-! ## Theorems -/

/-- C3: a `makeMove` call that violates any precondition — an operation
in flight, a terminal result on the current snapshot, the
local-human-may-move flag false, or the target cell occupied — is a
silent no-op: the state (snapshot and error slot alike) is unchanged
and no engine call or other event is emitted. -/
theorem makeMove_precondition_noop (env : MoveEnv) (st : GameState) (x y : Nat)
    (h : st.busy = true ∨ st.game.result.isSome = true ∨
         st.game.canHumanMove = false ∨
         (st.game.cell (y * st.game.boardSize + x)).isSome = true) :
    makeMove env st x y = (st, []) := by
  unfold makeMove
  rcases h with h | h | h | h <;> simp [h]

theorem makeMove_precondition_noop_witness :
    makeMove ⟨true, .failure "boom", .failure "boom"⟩
        ⟨defaultSnapshot, true, ⟨none, false⟩⟩ 0 0 =
      (⟨defaultSnapshot, true, ⟨none, false⟩⟩, []) :=
  makeMove_precondition_noop _ _ 0 0 (Or.inl rfl)

/-- C10: `requestAiMove` with `force = true` while the busy latch is set
is a no-op: no `ai_move` call is issued and the state is unchanged —
`force` bypasses only the terminal-result check, never the in-flight
guard. -/
theorem requestAiMove_force_busy_noop (env : MoveEnv) (st : GameState)
    (h : st.busy = true) :
    requestAiMove env st true = (st, []) := by
  unfold requestAiMove
  simp [h]

theorem requestAiMove_force_busy_noop_witness :
    requestAiMove ⟨true, .success defaultSnapshot, .success defaultSnapshot⟩
        ⟨defaultSnapshot, true, ⟨none, false⟩⟩ true =
      (⟨defaultSnapshot, true, ⟨none, false⟩⟩, []) :=
  requestAiMove_force_busy_noop _ _ rfl

/-- C2: when the `make_move` call fails (bridge unavailable or the
invoke rejects), the snapshot after the invocation equals the snapshot
before it, and the surfaced error is non-retryable. -/
theorem makeMove_failure_no_mutation (env : MoveEnv) (st : GameState) (x y : Nat)
    (hbusy : st.busy = false) (hres : st.game.result = none)
    (hchm : st.game.canHumanMove = true)
    (hcell : st.game.cell (y * st.game.boardSize + x) = none)
    (hfail : env.isTauri = false ∨ ∃ msg, env.makeMoveOutcome = .failure msg) :
    (makeMove env st x y).1.game = st.game ∧
    (makeMove env st x y).1.err.canRetryAi = false ∧
    (makeMove env st x y).1.err.error.isSome = true := by
  unfold makeMove call
  rcases hfail with h | ⟨msg, h⟩
  · simp [hbusy, hres, hchm, hcell, h]
  · cases ht : env.isTauri <;> simp [hbusy, hres, hchm, hcell, h, ht]

theorem makeMove_failure_no_mutation_witness :
    (makeMove ⟨true, .failure "illegal move", .success defaultSnapshot⟩
        ⟨defaultSnapshot, false, ⟨none, false⟩⟩ 0 0).1.game = defaultSnapshot ∧
    (makeMove ⟨true, .failure "illegal move", .success defaultSnapshot⟩
        ⟨defaultSnapshot, false, ⟨none, false⟩⟩ 0 0).1.err.canRetryAi = false ∧
    (makeMove ⟨true, .failure "illegal move", .success defaultSnapshot⟩
        ⟨defaultSnapshot, false, ⟨none, false⟩⟩ 0 0).1.err.error.isSome = true :=
  makeMove_failure_no_mutation _ _ 0 0 rfl rfl rfl (by decide)
    (Or.inr ⟨"illegal move", rfl⟩)

/-- C1: when the `make_move` call succeeds and the automatic `ai_move`
call is issued and fails, the resulting snapshot is exactly the one
`make_move` returned (the human move is not rolled back) and the
surfaced error carries the failure message with `canRetryAi = true`. -/
theorem makeMove_aiFailure_keeps_human_move (env : MoveEnv) (st : GameState)
    (x y : Nat) (snapshot : GameSnapshot) (msg : String)
    (hbusy : st.busy = false) (hres : st.game.result = none)
    (hchm : st.game.canHumanMove = true)
    (hcell : st.game.cell (y * st.game.boardSize + x) = none)
    (htauri : env.isTauri = true)
    (hmk : env.makeMoveOutcome = .success snapshot)
    (hsr : snapshot.result = none)
    (hmode : snapshot.mode.type = .human_vs_ai)
    (hshm : snapshot.canHumanMove = false)
    (hai : env.aiMoveOutcome = .failure msg) :
    (makeMove env st x y).1.game = snapshot ∧
    (makeMove env st x y).1.err.canRetryAi = true ∧
    (makeMove env st x y).1.err.error = some msg := by
  unfold makeMove call
  simp [hbusy, hres, hchm, hcell, htauri, hmk, hsr, hmode, hshm, hai]

theorem makeMove_aiFailure_keeps_human_move_witness :
    (makeMove ⟨true, .success { defaultSnapshot with canHumanMove := false },
        .failure "ai crashed"⟩ ⟨defaultSnapshot, false, ⟨none, false⟩⟩ 0 0).1.game =
      { defaultSnapshot with canHumanMove := false } ∧
    (makeMove ⟨true, .success { defaultSnapshot with canHumanMove := false },
        .failure "ai crashed"⟩ ⟨defaultSnapshot, false, ⟨none, false⟩⟩ 0 0).1.err.canRetryAi = true ∧
    (makeMove ⟨true, .success { defaultSnapshot with canHumanMove := false },
        .failure "ai crashed"⟩ ⟨defaultSnapshot, false, ⟨none, false⟩⟩ 0 0).1.err.error =
      some "ai crashed" :=
  makeMove_aiFailure_keeps_human_move _ _ 0 0 _ _ rfl rfl rfl (by decide)
    rfl rfl rfl rfl rfl rfl

/-- C4: when `make_move` succeeds, the automatic `ai_move` call is
issued if and only if the new snapshot has no terminal result, the mode
is `human_vs_ai`, and `canHumanMove` is false. -/
theorem makeMove_autoreply_iff (env : MoveEnv) (st : GameState)
    (x y : Nat) (snapshot : GameSnapshot)
    (hbusy : st.busy = false) (hres : st.game.result = none)
    (hchm : st.game.canHumanMove = true)
    (hcell : st.game.cell (y * st.game.boardSize + x) = none)
    (htauri : env.isTauri = true)
    (hmk : env.makeMoveOutcome = .success snapshot) :
    GameEvent.engineCall .ai_move ∈ (makeMove env st x y).2 ↔
      snapshot.result = none ∧ snapshot.mode.type = .human_vs_ai ∧
        snapshot.canHumanMove = false := by
  unfold makeMove call
  simp only [hbusy, hres, hchm, hcell, htauri, hmk]
  by_cases howed : snapshot.result = none ∧ snapshot.mode.type = .human_vs_ai ∧
      snapshot.canHumanMove = false
  · obtain ⟨h1, h2, h3⟩ := howed
    rcases hao : env.aiMoveOutcome with v | m
    · rcases hv : v.result with _ | r <;>
        simp [h1, h2, h3, hao, hv]
    · simp [h1, h2, h3, hao]
  · rcases hsr : snapshot.result with _ | r
    · simp only [hsr, true_and] at howed
      rcases hv : snapshot.canHumanMove <;>
        simp_all [hsr]
    · simp [hsr]

theorem makeMove_autoreply_iff_witness :
    (GameEvent.engineCall .ai_move ∈
        (makeMove ⟨true, .success { defaultSnapshot with canHumanMove := false },
          .failure "ai crashed"⟩ ⟨defaultSnapshot, false, ⟨none, false⟩⟩ 0 0).2) ↔
      ({ defaultSnapshot with canHumanMove := false } : GameSnapshot).result = none ∧
        ({ defaultSnapshot with canHumanMove := false } : GameSnapshot).mode.type =
          .human_vs_ai ∧
        ({ defaultSnapshot with canHumanMove := false } : GameSnapshot).canHumanMove = false :=
  makeMove_autoreply_iff _ _ 0 0 _ rfl rfl rfl (by decide) rfl rfl

/-- C5: whenever the governing condition becomes false — the result is
terminal or the mode is no longer AI-vs-AI — the render cycle forces
`isPlaying = false` and clears the timer, with no `stop()` call. -/
theorem autoPlay_governing_false_stops (s : AutoPlaySched)
    (isGameOver isAiVsAi : Bool)
    (h : isGameOver = true ∨ isAiVsAi = false) :
    (reconcile s isGameOver isAiVsAi).1.isPlaying = false ∧
    (reconcile s isGameOver isAiVsAi).1.timer = none := by
  unfold reconcile runPlayingEffect runModeEffect clearAutoPlay stepDispatch
  rcases h with h | h <;> subst h
  · rcases hc : isAiVsAi <;> simp [hc]
  · rcases hc : isGameOver <;> simp [hc]

theorem autoPlay_governing_false_stops_witness :
    (reconcile ⟨true, .medium, some 1000, false⟩ true true).1.isPlaying = false ∧
    (reconcile ⟨true, .medium, some 1000, false⟩ true true).1.timer = none :=
  autoPlay_governing_false_stops _ true true (Or.inl rfl)

/-- C6 (counterexample): changing the speed while playing does fire an
extra immediate step: from `playing` at medium speed with no step in
flight and the game live in AI-vs-AI mode, switching to fast
re-installs the 500ms timer but also dispatches a step at once,
refuting the claim that no extra immediate step is fired. -/
theorem speedChange_fires_extra_step :
    (setSpeedChange ⟨true, .medium, some 1000, false⟩ .fast false true).1.timer =
      some 500 ∧
    (setSpeedChange ⟨true, .medium, some 1000, false⟩ .fast false true).2 ≠ [] := by
  constructor
  · rfl
  · decide

/-- C6 (amended): changing the speed while playing (game live,
AI-vs-AI) tears down and re-establishes the timer at the new interval
(slow=2000ms, medium=1000ms, fast=500ms), and the effect re-run fires
one immediate step — dispatched unless a step is already in flight. -/
theorem speedChange_rebuilds_timer (s : AutoPlaySched) (newSpeed : AutoPlaySpeed)
    (hp : s.isPlaying = true) :
    (setSpeedChange s newSpeed false true).1.isPlaying = true ∧
    (setSpeedChange s newSpeed false true).1.timer =
      some (SPEED_INTERVALS newSpeed) ∧
    (setSpeedChange s newSpeed false true).2 =
      (if s.stepping then [] else [.stepDispatched]) ∧
    SPEED_INTERVALS .slow = 2000 ∧ SPEED_INTERVALS .medium = 1000 ∧
      SPEED_INTERVALS .fast = 500 := by
  unfold setSpeedChange reconcile runPlayingEffect runModeEffect clearAutoPlay stepDispatch
  rcases hs : s.stepping <;> simp [hp, hs, SPEED_INTERVALS]

theorem speedChange_rebuilds_timer_witness :
    (setSpeedChange ⟨true, .medium, some 1000, false⟩ .fast false true).1.isPlaying = true ∧
    (setSpeedChange ⟨true, .medium, some 1000, false⟩ .fast false true).1.timer =
      some (SPEED_INTERVALS .fast) ∧
    (setSpeedChange ⟨true, .medium, some 1000, false⟩ .fast false true).2 =
      (if (⟨true, .medium, some 1000, false⟩ : AutoPlaySched).stepping then []
        else [.stepDispatched]) ∧
    SPEED_INTERVALS .slow = 2000 ∧ SPEED_INTERVALS .medium = 1000 ∧
      SPEED_INTERVALS .fast = 500 :=
  speedChange_rebuilds_timer _ .fast rfl

/-- C7: on every progress event with `completed > 0` and `total > 0`,
the ETA is the formatted value of
`(total - completed) * (elapsedSeconds / completed)` with elapsed time
measured from the anchor timestamp; on every event with
`completed = 0` or `total = 0`, the ETA is explicitly cleared. -/
theorem selfPlay_eta_formula (st : SelfPlayState) (payload : SelfPlayProgress)
    (now : ℚ) :
    (payload.completed > 0 ∧ payload.total > 0 →
      (onSelfPlayProgress st payload now).eta =
        some (formatDuration
          (((payload.total : ℚ) - (payload.completed : ℚ)) *
            (((now - anchorOf st now) / 1000) / (payload.completed : ℚ))))) ∧
    (payload.completed = 0 ∨ payload.total = 0 →
      (onSelfPlayProgress st payload now).eta = none) := by
  constructor
  · intro h
    simp [onSelfPlayProgress, h]
  · intro h
    have hn : ¬(payload.completed > 0 ∧ payload.total > 0) := by
      rcases h with h | h <;> simp [h]
    simp [onSelfPlayProgress, hn]

theorem selfPlay_eta_formula_witness :
    (onSelfPlayProgress initSelfPlay ⟨10, 100, 10⟩ 5000).eta =
      some (formatDuration
        ((((100 : Nat) : ℚ) - ((10 : Nat) : ℚ)) *
          ((((5000 : ℚ) - anchorOf initSelfPlay 5000) / 1000) / ((10 : Nat) : ℚ)))) ∧
    (onSelfPlayProgress initSelfPlay ⟨0, 100, 0⟩ 5000).eta = none :=
  ⟨(selfPlay_eta_formula initSelfPlay ⟨10, 100, 10⟩ 5000).1 (by decide),
   (selfPlay_eta_formula initSelfPlay ⟨0, 100, 0⟩ 5000).2 (Or.inl rfl)⟩

/-- C8 (counterexample): when `start_self_play` rejects, the tracker
does more than clear `busy`: it also surfaces the rejection message and
resets the anchor timestamp, so the final state is not the post-setup
state with only `busy` cleared. -/
theorem selfPlayStart_failure_extra_changes :
    selfPlayStart initSelfPlay 1000 (.threw "boom") ≠
      { selfPlayStartSetup initSelfPlay 1000 with busy := false } := by
  decide

/-- C8 (amended): for a non-no-op `start()` whose job-start call
rejects or resolves null ("not started"), `busy` is cleared immediately
and the anchor timestamp is reset; progress, report and ETA stay
cleared, and the error slot records the rejection message (nothing on a
null resolution). -/
theorem selfPlayStart_failure_cleanup (st : SelfPlayState) (now : ℚ)
    (outcome : StartOutcome) (hbusy : st.busy = false)
    (hfail : outcome = .resolved none ∨ ∃ msg, outcome = .threw msg) :
    (selfPlayStart st now outcome).busy = false ∧
    (selfPlayStart st now outcome).startRef = none ∧
    (selfPlayStart st now outcome).progress = none ∧
    (selfPlayStart st now outcome).report = none ∧
    (selfPlayStart st now outcome).eta = none ∧
    (selfPlayStart st now outcome).error =
      (match outcome with
        | .threw msg => some msg
        | .resolved _ => none) := by
  rcases hfail with h | ⟨msg, h⟩ <;> subst h <;>
    simp [selfPlayStart, selfPlayStartSetup, hbusy]

theorem selfPlayStart_failure_cleanup_witness :
    (selfPlayStart initSelfPlay 1000 (.threw "boom")).busy = false ∧
    (selfPlayStart initSelfPlay 1000 (.threw "boom")).startRef = none ∧
    (selfPlayStart initSelfPlay 1000 (.threw "boom")).progress = none ∧
    (selfPlayStart initSelfPlay 1000 (.threw "boom")).report = none ∧
    (selfPlayStart initSelfPlay 1000 (.threw "boom")).eta = none ∧
    (selfPlayStart initSelfPlay 1000 (.threw "boom")).error =
      (match (StartOutcome.threw "boom") with
        | .threw msg => some msg
        | .resolved _ => none) :=
  selfPlayStart_failure_cleanup initSelfPlay 1000 _ rfl (Or.inr ⟨"boom", rfl⟩)

/-- C9 (counterexample): the banner is not last-write-wins: if a game
error "A" is surfaced and then a self-play error "B", both slots are
occupied but the banner shows "A" (the game error), not the most
recently surfaced "B". -/
theorem errorBanner_not_lastWriteWins :
    truthy (errorSlots [.gameError "A", .selfPlayError "B"]).1 = true ∧
    truthy (errorSlots [.gameError "A", .selfPlayError "B"]).2 = true ∧
    visibleError (errorSlots [.gameError "A", .selfPlayError "B"]).1
        (errorSlots [.gameError "A", .selfPlayError "B"]).2 ≠
      lastSurfacedError [.gameError "A", .selfPlayError "B"] := by
  decide

/-- C9 (amended): the two error sources share one visible slot — the
banner displays a single message — and whenever the game-pipeline error
is present it is the one displayed, regardless of which error was
surfaced more recently. -/
theorem errorBanner_game_precedence (ws : List ErrorWrite)
    (hg : truthy (errorSlots ws).1 = true) :
    visibleError (errorSlots ws).1 (errorSlots ws).2 = (errorSlots ws).1 := by
  unfold visibleError errorSlotValue
  simp [hg]

theorem errorBanner_game_precedence_witness :
    visibleError (errorSlots [.gameError "A", .selfPlayError "B"]).1
        (errorSlots [.gameError "A", .selfPlayError "B"]).2 =
      (errorSlots [.gameError "A", .selfPlayError "B"]).1 :=
  errorBanner_game_precedence _ (by decide)

end Gomoku
